import Mathlib

/-!
Shallow embedding of the nautilus_trader data-distribution core:
the backtest data client (`src/nautilus_trader/backtest/data.pyx`) and the
live data client (`src/unnamed/part_000`, also a `data.pyx`).

Machine conventions used throughout:
* `Symbol` and timestamps are natural numbers; `Tick` carries a symbol and a
  timestamp (the external value type orders ticks by timestamp).
* Python dicts are embedded as insertion-ordered association lists
  (Python 3.7+ semantics: assignment to an existing key updates in place,
  a new key is appended).
* Fallible Python statements (`assert`, dict `[]` indexing, list `[]`
  indexing, `Condition.*` checks) run in `Except PyError`.
-/

namespace Nautilus

/-- The kinds of exception the embedded code can raise. -/
inductive PyError
  | valueError
  | assertionError
  | keyError
  | indexError
deriving DecidableEq, Repr

abbrev Symbol := Nat
abbrev Timestamp := Nat
abbrev PyDate := Nat

/-- A single timestamped quote (external value type; ordered by timestamp). -/
structure Tick where
  symbol : Symbol
  timestamp : Timestamp
deriving DecidableEq, Repr

/-- An aggregated OHLC summary (external value type; only its identity matters here). -/
structure Bar where
  timestamp : Timestamp
deriving DecidableEq, Repr

inductive BarStructure
  | TICK
  | SECOND
  | MINUTE
  | HOUR
deriving DecidableEq, Repr

inductive PriceType
  | BID
  | ASK
  | MID
  | LAST
deriving DecidableEq, Repr

/-- The source field named `structure` is a Lean keyword, embedded as `bstructure`. -/
structure BarSpecification where
  period : Nat
  bstructure : BarStructure
  price_type : PriceType
deriving DecidableEq, Repr

structure BarType where
  symbol : Symbol
  specification : BarSpecification
deriving DecidableEq, Repr

structure Instrument where
  symbol : Symbol
  tick_precision : Nat
deriving DecidableEq, Repr

/-! ### Python dict embedding: insertion-ordered association lists -/

/-- Python dict assignment `m[k] = a`: update in place when the key exists,
append otherwise. -/
def dinsert {κ α : Type} [DecidableEq κ] : List (κ × α) → κ → α → List (κ × α)
  | [], k, a => [(k, a)]
  | (k', a') :: rest, k, a =>
      if k' = k then (k, a) :: rest else (k', a') :: dinsert rest k a

/-- Python dict read access `m.get(k)` / `k in m` support. -/
def dlookup {κ α : Type} [DecidableEq κ] : List (κ × α) → κ → Option α
  | [], _ => none
  | (k', a') :: rest, k => if k' = k then some a' else dlookup rest k

/-- Python `k in m` membership test on a dict. -/
def dmem {κ α : Type} [DecidableEq κ] (m : List (κ × α)) (k : κ) : Bool :=
  (dlookup m k).isSome

/-- Python dict indexing `m[k]`: raises `KeyError` when the key is absent. -/
def dindex {κ α : Type} [DecidableEq κ] (m : List (κ × α)) (k : κ) : Except PyError α :=
  match dlookup m k with
  | some a => Except.ok a
  | none => Except.error PyError.keyError

/-- Python list indexing `xs[0]`: raises `IndexError` on an empty list. -/
def listIndex0 {α : Type} : List α → Except PyError α
  | [] => Except.error PyError.indexError
  | a :: _ => Except.ok a

/-- Python list indexing `xs[-1]`: raises `IndexError` on an empty list. -/
def listIndexLast {α : Type} : List α → Except PyError α
  | [] => Except.error PyError.indexError
  | [a] => Except.ok a
  | _ :: b :: rest => listIndexLast (b :: rest)

def exceptIsOk {ε α : Type} : Except ε α → Bool
  | Except.ok _ => true
  | Except.error _ => false

def exceptIsErr {ε α : Type} : Except ε α → Bool
  | Except.ok _ => false
  | Except.error _ => true

/-! ### Python statement semantics -/

/-- Python `assert expr`: raises `AssertionError` when `expr` is falsy. -/
def pyAssert (truthy : Bool) : Except PyError Unit :=
  if truthy then Except.ok () else Except.error PyError.assertionError

/-- Python truthiness of a two-element tuple: a nonempty tuple is always truthy.
The source line `assert(symbol in self._instruments, f'The needed instrument
{symbol} was not provided.')` applies `assert` to the 2-tuple
`(condition, message)` — not to the condition — so the statement can never
raise, whatever the membership condition evaluates to. The condition is kept
as an argument to document what the source intended to test. -/
def pyTruthy2Tuple (pair : Bool × Unit) : Bool :=
  match pair with
  | (_, _) => true

/-- `Condition.true(predicate, description)`: raises when the predicate is false
(`nautilus_trader.core.correctness`, external; modelled from its documented
contract in the source docstrings). -/
def Condition.check_true (predicate : Bool) : Except PyError Unit :=
  if predicate then Except.ok () else Except.error PyError.valueError

/-- `Condition.not_negative_int(value, param)`: raises for a negative value
(external `nautilus_trader.core.correctness`; modelled from the documented
contract ":raises ValueError: If the limit is negative (< 0)."). -/
def Condition.not_negative_int (value : Int) : Except PyError Unit :=
  if value < 0 then Except.error PyError.valueError else Except.ok ()

/-! ### Backtest data container (`BacktestDataContainer`) -/

/-- A raw historical table: its rows carry the timestamps that the external
wrangler turns into ticks.  Modelled as the resulting tick rows. -/
abbrev DataFrame := List Tick

structure BacktestDataContainer where
  instruments : List (Symbol × Instrument)
  ticks : List (Symbol × DataFrame)
  bars_bid : List (Symbol × List (BarStructure × DataFrame))
  bars_ask : List (Symbol × List (BarStructure × DataFrame))
deriving DecidableEq, Repr

def BacktestDataContainer.empty : BacktestDataContainer :=
  { instruments := [], ticks := [], bars_bid := [], bars_ask := [] }

def BacktestDataContainer.add_instrument
    (c : BacktestDataContainer) (instrument : Instrument) : BacktestDataContainer :=
  { c with instruments := dinsert c.instruments instrument.symbol instrument }

def BacktestDataContainer.add_ticks
    (c : BacktestDataContainer) (symbol : Symbol) (data : DataFrame) : BacktestDataContainer :=
  { c with ticks := dinsert c.ticks symbol data }

/-- `if symbol not in bars: bars[symbol] = {}` followed by
`bars[symbol][structure] = data`. -/
def addBarEntry (m : List (Symbol × List (BarStructure × DataFrame)))
    (symbol : Symbol) (bs : BarStructure) (data : DataFrame) :
    List (Symbol × List (BarStructure × DataFrame)) :=
  let inner := (dlookup m symbol).getD []
  dinsert m symbol (dinsert inner bs data)

def BacktestDataContainer.add_bars (c : BacktestDataContainer) (symbol : Symbol)
    (bs : BarStructure) (price_type : PriceType) (data : DataFrame) :
    Except PyError BacktestDataContainer := do
  let _ ← Condition.check_true (price_type ≠ PriceType.LAST)
  let c := if price_type = PriceType.BID then
      { c with bars_bid := addBarEntry c.bars_bid symbol bs data } else c
  let c := if price_type = PriceType.ASK then
      { c with bars_ask := addBarEntry c.bars_ask symbol bs data } else c
  Except.ok c

/-! ### Data provider (`DataProvider`) -/

/-- Modelled from the spec: `TickDataWrangler.build_ticks_all` is an external
collaborator (not under `src/`) that converts the raw tick table — or, when
that table is absent, the selected bid/ask bar tables — into the instrument's
time-ordered tick sequence.  The embedding takes the rows of the chosen table
as that sequence. -/
def build_ticks_all (tick_data : Option DataFrame) (bid_data ask_data : DataFrame) :
    List Tick :=
  match tick_data, ask_data with
  | some df, _ => df
  | none, _ => bid_data

structure DataProvider where
  instrument : Instrument
  ticks : List Tick
deriving DecidableEq, Repr

/-- `DataProvider.__init__`: select the bar granularity (second, else minute,
else hour, else empty frames) and build the tick sequence.  The `bars_ask`
indexings are as unguarded as in the source. -/
def DataProvider.init (instrument : Instrument) (ticks : Option DataFrame)
    (bars_bid bars_ask : List (BarStructure × DataFrame)) :
    Except PyError DataProvider := do
  let (bid_data, ask_data) ←
    if dmem bars_bid BarStructure.SECOND then do
      let b ← dindex bars_bid BarStructure.SECOND
      let a ← dindex bars_ask BarStructure.SECOND
      Except.ok (b, a)
    else if dmem bars_bid BarStructure.MINUTE then do
      let b ← dindex bars_bid BarStructure.MINUTE
      let a ← dindex bars_ask BarStructure.MINUTE
      Except.ok (b, a)
    else if dmem bars_bid BarStructure.HOUR then do
      let b ← dindex bars_bid BarStructure.HOUR
      let a ← dindex bars_ask BarStructure.HOUR
      Except.ok (b, a)
    else Except.ok ([], [])
  Except.ok { instrument := instrument, ticks := build_ticks_all ticks bid_data ask_data }

/-! ### Backtest data client construction (`BacktestDataClient.__init__`) -/

/-- Modelled from the spec: `_handle_instrument` on the shared `DataClient`
base (not under `src/`) stores the instrument in the client's instrument map
keyed by its symbol (and dispatches it to any registered handlers). -/
def instrMap (c : BacktestDataContainer) : List (Symbol × Instrument) :=
  c.instruments.foldl (fun m p => dinsert m p.2.symbol p.2) []

/-- The `data_symbols` set: tick-table keys plus bid- and ask-bar-table keys. -/
def dataSymbols (c : BacktestDataContainer) : List Symbol :=
  (c.ticks.map Prod.fst ++ c.bars_bid.map Prod.fst ++ c.bars_ask.map Prod.fst).dedup

/-- The instrument-completeness loop: `for symbol in data_symbols:
assert(symbol in self._instruments, f'...')`.  The assert is applied to a
two-element tuple (see `pyTruthy2Tuple`), so each iteration is a no-op. -/
def check_data_symbols (instr : List (Symbol × Instrument)) :
    List Symbol → Except PyError Unit
  | [] => Except.ok ()
  | symbol :: rest => do
      let _ ← pyAssert (pyTruthy2Tuple (dmem instr symbol, ()))
      check_data_symbols instr rest

/-- One step of the provider-construction loop: the `bars_bid`/`bars_ask`
lookups by symbol are unguarded dict indexings, while the tick table is
guarded (`None if symbol not in data.ticks else data.ticks[symbol]`). -/
def buildProvider (data : BacktestDataContainer)
    (m : List (Symbol × DataProvider)) (p : Symbol × Instrument) :
    Except PyError (List (Symbol × DataProvider)) := do
  let bb ← dindex data.bars_bid p.1
  let ba ← dindex data.bars_ask p.1
  let dp ← DataProvider.init p.2 (dlookup data.ticks p.1) bb ba
  Except.ok (dinsert m p.1 dp)

def build_data_providers (data : BacktestDataContainer) :
    List (Symbol × DataProvider) → List (Symbol × Instrument) →
    Except PyError (List (Symbol × DataProvider))
  | m, [] => Except.ok m
  | m, p :: rest => do
      let m' ← buildProvider data m p
      build_data_providers data m' rest

/-- Stable insertion keeping ties in their original relative order, matching
Python's stable `sorted` applied to timestamp-ordered ticks. -/
def insertTick (t : Tick) : List Tick → List Tick
  | [] => [t]
  | u :: us => if u.timestamp ≤ t.timestamp then u :: insertTick t us else t :: u :: us

/-- `sorted(ticks)`: Python's stable sort by the tick ordering (timestamps). -/
def sortTicks : List Tick → List Tick
  | [] => []
  | t :: ts => insertTick t (sortTicks ts)

structure BacktestDataClient where
  instruments : List (Symbol × Instrument)
  data_providers : List (Symbol × DataProvider)
  ticks : List Tick
  min_timestamp : Timestamp
  max_timestamp : Timestamp
deriving DecidableEq, Repr

/-- `BacktestDataClient.__init__`: update the instrument map, run the (inert)
data-symbol check, build one `DataProvider` per instrument, concatenate all
providers' ticks, store the sorted stream, and record `min_timestamp` /
`max_timestamp` from `ticks[0]` / `ticks[-1]` of the *unsorted* concatenation
(the source reads the local `ticks`, not the sorted `self.ticks`). -/
def BacktestDataClient.init (data : BacktestDataContainer) :
    Except PyError BacktestDataClient := do
  let instr := instrMap data
  let _ ← check_data_symbols instr (dataSymbols data)
  let providers ← build_data_providers data [] instr
  let ticks := providers.foldl (fun acc p => acc ++ p.2.ticks) []
  let first ← listIndex0 ticks
  let last ← listIndexLast ticks
  Except.ok { instruments := instr
              data_providers := providers
              ticks := sortTicks ticks
              min_timestamp := first.timestamp
              max_timestamp := last.timestamp }

/-! ### Virtual clock and `BacktestDataClient.process_tick` -/

/-- A pending timer of the virtual clock (label and trigger time). -/
structure Timer where
  label : Nat
  trigger : Timestamp
deriving DecidableEq, Repr

/-- Modelled from the spec: the virtual clock (`TestClock`,
`nautilus_trader.common.clock`, not under `src/`) exposes "has pending
timers" and "next event time" (the earliest pending trigger); `advance_time`
moves its notion of "now"; the pending events are the timers now due, which
are removed as they are retrieved. -/
structure TestClock where
  time : Timestamp
  timers : List Timer
deriving DecidableEq, Repr

def TestClock.has_timers (c : TestClock) : Bool :=
  !c.timers.isEmpty

/-- The earliest pending trigger time (meaningful only when timers exist). -/
def TestClock.next_event_time (c : TestClock) : Timestamp :=
  match c.timers.map Timer.trigger with
  | [] => 0
  | t :: ts => ts.foldl min t

/-- The backtest client state observable through `process_tick`: the virtual
clock, the ticks dispatched to tick handlers, and the timer callbacks
invoked, each in order. -/
structure BtState where
  clock : TestClock
  handledTicks : List Tick
  firedTimers : List Timer
deriving DecidableEq, Repr

/-- `BacktestDataClient.process_tick`: dispatch the tick to the tick handlers,
then — unless the clock has timers whose earliest trigger is still later than
the tick's timestamp — advance the clock to the tick's timestamp and invoke
every timer now due. -/
def process_tick (s : BtState) (tick : Tick) : BtState :=
  let s := { s with handledTicks := s.handledTicks ++ [tick] }
  if s.clock.has_timers = true ∧ tick.timestamp < s.clock.next_event_time then
    s
  else
    let due := s.clock.timers.filter (fun t => t.trigger ≤ tick.timestamp)
    let rest := s.clock.timers.filter (fun t => !(t.trigger ≤ tick.timestamp : Bool))
    { s with
        clock := { time := tick.timestamp, timers := rest }
        firedTimers := s.firedTimers ++ due }

/-! ### Live data client (`src/unnamed/part_000`)

Every externally visible effect of a live-client call is recorded in an
event trace; each operation returns its outcome (`Except`) paired with the
trace of effects that happened before the outcome was reached. -/

inductive WireChannel
  | tickReq
  | barReq
  | instReq
  | tickSub
  | barSub
  | instSub
deriving DecidableEq, Repr

/-- The logical request envelope built by the `request_*` operations. -/
structure DataRequest where
  data_type : String
  symbol : Option Symbol
  specification : Option BarSpecification
  venue : Option Nat
  from_date : Option PyDate
  to_date : Option PyDate
  limit : Option Int
deriving DecidableEq, Repr

def bar_structure_to_string : BarStructure → String
  | BarStructure.TICK => "TICK"
  | BarStructure.SECOND => "SECOND"
  | BarStructure.MINUTE => "MINUTE"
  | BarStructure.HOUR => "HOUR"

def price_type_to_string : PriceType → String
  | PriceType.BID => "BID"
  | PriceType.ASK => "ASK"
  | PriceType.MID => "MID"
  | PriceType.LAST => "LAST"

def Symbol.to_string (s : Symbol) : String :=
  toString s

def BarSpecification.to_string (s : BarSpecification) : String :=
  toString s.period ++ "-" ++ bar_structure_to_string s.bstructure
    ++ "-" ++ price_type_to_string s.price_type

def BarType.to_string (bt : BarType) : String :=
  Symbol.to_string bt.symbol ++ "-" ++ bt.specification.to_string

inductive LiveEvent
  | logInfo
  | logError (reason : String)
  | reqSent (channel : WireChannel) (request : DataRequest)
  | wireSubscribe (channel : WireChannel) (topic : String)
  | wireUnsubscribe (channel : WireChannel) (topic : String)
  | addTickHandler (symbol : Symbol)
  | removeTickHandler (symbol : Symbol)
  | addBarHandler (bar_type : BarType)
  | removeBarHandler (bar_type : BarType)
  | addInstrumentHandler (symbol : Symbol)
  | removeInstrumentHandler (symbol : Symbol)
  | callbackTicks (symbol : Symbol) (items : List Tick)
  | callbackBars (bar_type : BarType) (items : List Bar)
  | callbackInstrument (instrument : Instrument)
  | callbackInstruments (items : List Instrument)
  | selfGenerateBars (bar_type : BarType)
  | bulkBuildTickBars (bar_type : BarType)
deriving DecidableEq, Repr

/-- A deserialized reply on a request/reply channel: a success payload or one
of the two rejection variants. -/
inductive WireResponse (α : Type)
  | rejected (reason : String)
  | queryFailure (reason : String)
  | success (payload : α)
deriving DecidableEq, Repr

def WireResponse.isFailure {α : Type} : WireResponse α → Bool
  | WireResponse.rejected _ => true
  | WireResponse.queryFailure _ => true
  | WireResponse.success _ => false

/-- A successful tick-query payload: the subject symbol from
`data[METADATA][SYMBOL]` resolved through the object cache (external
`ObjectCache`/`Symbol.from_string`, modelled as the decoded symbol value) and
the decoded tick items from `data[DATA]`. -/
structure TickQueryPayload where
  msymbol : Symbol
  items : List Tick
deriving DecidableEq, Repr

/-- A successful bar-query payload: subject symbol and bar specification from
the response metadata (`metadata[SYMBOL] + '-' + metadata[SPECIFICATION]`
resolved through the object cache, modelled as the decoded values) plus the
decoded bar items. -/
structure BarQueryPayload where
  msymbol : Symbol
  mspec : BarSpecification
  items : List Bar
deriving DecidableEq, Repr

/-- A successful instrument-query payload: the deserialized instruments of
`data[DATA]`. -/
structure InstQueryPayload where
  items : List Instrument
deriving DecidableEq, Repr

/-- `LiveDataClient.request_ticks`: validate (negative limit raises before any
wire activity), build and send the query on the tick request channel, then
handle the deserialized reply (`wire` stands for the reply the blocking
`send` returned). -/
def request_ticks (symbol : Symbol) (from_date to_date : PyDate) (limit : Int)
    (wire : WireResponse TickQueryPayload) :
    Except PyError Unit × List LiveEvent :=
  if limit < 0 then (Except.error PyError.valueError, [])
  else
    let query : DataRequest :=
      { data_type := "Tick[]", symbol := some symbol, specification := none,
        venue := none, from_date := some from_date, to_date := some to_date,
        limit := some limit }
    let events := [LiveEvent.logInfo, LiveEvent.reqSent WireChannel.tickReq query]
    match wire with
    | WireResponse.rejected reason =>
        (Except.ok (), events ++ [LiveEvent.logError reason])
    | WireResponse.queryFailure reason =>
        (Except.ok (), events ++ [LiveEvent.logError reason])
    | WireResponse.success payload =>
        let received_symbol := payload.msymbol
        if received_symbol = symbol then
          (Except.ok (), events ++ [LiveEvent.callbackTicks received_symbol payload.items])
        else
          (Except.error PyError.assertionError, events)

/-- `LiveDataClient.request_bars`: validate, divert tick-structured bar types
to the local bulk builder, otherwise send the query on the bar request
channel and handle the reply. -/
def request_bars (bar_type : BarType) (from_date to_date : PyDate) (limit : Int)
    (wire : WireResponse BarQueryPayload) :
    Except PyError Unit × List LiveEvent :=
  if limit < 0 then (Except.error PyError.valueError, [])
  else if bar_type.specification.bstructure = BarStructure.TICK then
    (Except.ok (), [LiveEvent.bulkBuildTickBars bar_type])
  else
    let query : DataRequest :=
      { data_type := "Bar[]", symbol := some bar_type.symbol,
        specification := some bar_type.specification, venue := none,
        from_date := some from_date, to_date := some to_date, limit := some limit }
    let events := [LiveEvent.logInfo, LiveEvent.reqSent WireChannel.barReq query]
    match wire with
    | WireResponse.rejected reason =>
        (Except.ok (), events ++ [LiveEvent.logError reason])
    | WireResponse.queryFailure reason =>
        (Except.ok (), events ++ [LiveEvent.logError reason])
    | WireResponse.success payload =>
        let received_bar_type : BarType :=
          { symbol := payload.msymbol, specification := payload.mspec }
        if received_bar_type = bar_type then
          (Except.ok (), events ++ [LiveEvent.callbackBars received_bar_type payload.items])
        else
          (Except.error PyError.assertionError, events)

/-- `LiveDataClient.request_instrument`: send the query on the instrument
request channel and handle the reply; the success path indexes
`data[DATA][0]` and asserts the instrument's symbol equals the request's. -/
def request_instrument (symbol : Symbol) (wire : WireResponse InstQueryPayload) :
    Except PyError Unit × List LiveEvent :=
  let query : DataRequest :=
    { data_type := "Instrument[]", symbol := some symbol, specification := none,
      venue := none, from_date := none, to_date := none, limit := none }
  let events := [LiveEvent.logInfo, LiveEvent.reqSent WireChannel.instReq query]
  match wire with
  | WireResponse.rejected reason =>
      (Except.ok (), events ++ [LiveEvent.logError reason])
  | WireResponse.queryFailure reason =>
      (Except.ok (), events ++ [LiveEvent.logError reason])
  | WireResponse.success payload =>
      match payload.items with
      | [] => (Except.error PyError.indexError, events)
      | instrument :: _ =>
          if instrument.symbol = symbol then
            (Except.ok (), events ++ [LiveEvent.callbackInstrument instrument])
          else
            (Except.error PyError.assertionError, events)

/-- `LiveDataClient.request_instruments`: send the venue query on the
instrument request channel and handle the reply (no subject assertion on the
success path). -/
def request_instruments (venue : Nat) (wire : WireResponse InstQueryPayload) :
    Except PyError Unit × List LiveEvent :=
  let query : DataRequest :=
    { data_type := "Instrument[]", symbol := none, specification := none,
      venue := some venue, from_date := none, to_date := none, limit := none }
  let events := [LiveEvent.logInfo, LiveEvent.reqSent WireChannel.instReq query]
  match wire with
  | WireResponse.rejected reason =>
      (Except.ok (), events ++ [LiveEvent.logError reason])
  | WireResponse.queryFailure reason =>
      (Except.ok (), events ++ [LiveEvent.logError reason])
  | WireResponse.success payload =>
      (Except.ok (), events ++ [LiveEvent.callbackInstruments payload.items])

/-- `LiveDataClient.subscribe_ticks`: register the handler, then issue the
wire subscribe on the tick publish/subscribe channel. -/
def subscribe_ticks (symbol : Symbol) : List LiveEvent :=
  [LiveEvent.addTickHandler symbol,
   LiveEvent.wireSubscribe WireChannel.tickSub (Symbol.to_string symbol)]

/-- Modelled from the spec: `_self_generate_bars` on the shared `DataClient`
base (not under `src/`) subscribes to the underlying tick stream and drives a
tick-counting bar aggregator that synthesizes bars locally and forwards them
through the same `_handle_bar` dispatch path; the embedding records the tick
subscription and the aggregator setup. -/
def self_generate_bars (bar_type : BarType) : List LiveEvent :=
  subscribe_ticks bar_type.symbol ++ [LiveEvent.selfGenerateBars bar_type]

/-- `LiveDataClient.subscribe_bars`: tick-structured bar types never touch the
bar publish/subscribe channel; wall-clock bar types register the handler and
then issue the wire subscribe. -/
def subscribe_bars (bar_type : BarType) : List LiveEvent :=
  if bar_type.specification.bstructure = BarStructure.TICK then
    self_generate_bars bar_type
  else
    [LiveEvent.addBarHandler bar_type,
     LiveEvent.wireSubscribe WireChannel.barSub bar_type.to_string]

/-- `LiveDataClient.subscribe_instrument`: register the handler, then issue
the wire subscribe on the instrument publish/subscribe channel. -/
def subscribe_instrument (symbol : Symbol) : List LiveEvent :=
  [LiveEvent.addInstrumentHandler symbol,
   LiveEvent.wireSubscribe WireChannel.instSub (Symbol.to_string symbol)]

/-- `LiveDataClient.unsubscribe_ticks`: issue the wire unsubscribe (a blocking
call that completes before the next statement), then remove the handler. -/
def unsubscribe_ticks (symbol : Symbol) : List LiveEvent :=
  [LiveEvent.wireUnsubscribe WireChannel.tickSub (Symbol.to_string symbol),
   LiveEvent.removeTickHandler symbol]

def unsubscribe_bars (bar_type : BarType) : List LiveEvent :=
  [LiveEvent.wireUnsubscribe WireChannel.barSub bar_type.to_string,
   LiveEvent.removeBarHandler bar_type]

def unsubscribe_instrument (symbol : Symbol) : List LiveEvent :=
  [LiveEvent.wireUnsubscribe WireChannel.instSub (Symbol.to_string symbol),
   LiveEvent.removeInstrumentHandler symbol]

/-! ### Trace predicates -/

def isCallbackEvent : LiveEvent → Bool
  | LiveEvent.callbackTicks _ _ => true
  | LiveEvent.callbackBars _ _ => true
  | LiveEvent.callbackInstrument _ => true
  | LiveEvent.callbackInstruments _ => true
  | _ => false

def isLogErrorEvent : LiveEvent → Bool
  | LiveEvent.logError _ => true
  | _ => false

def isReqSentEvent : LiveEvent → Bool
  | LiveEvent.reqSent _ _ => true
  | _ => false

def isWireSubscribeEvent : LiveEvent → Bool
  | LiveEvent.wireSubscribe _ _ => true
  | _ => false

def isBarWireSubscribeEvent : LiveEvent → Bool
  | LiveEvent.wireSubscribe WireChannel.barSub _ => true
  | _ => false

def isWireUnsubscribeEvent : LiveEvent → Bool
  | LiveEvent.wireUnsubscribe _ _ => true
  | _ => false

def isRegisterEvent : LiveEvent → Bool
  | LiveEvent.addTickHandler _ => true
  | LiveEvent.addBarHandler _ => true
  | LiveEvent.addInstrumentHandler _ => true
  | _ => false

def isRemoveEvent : LiveEvent → Bool
  | LiveEvent.removeTickHandler _ => true
  | LiveEvent.removeBarHandler _ => true
  | LiveEvent.removeInstrumentHandler _ => true
  | _ => false

/-- The first event satisfying `p` occurs, the first event satisfying `q`
occurs, and the former strictly precedes the latter in the trace. -/
def eventBefore (p q : LiveEvent → Bool) (tr : List LiveEvent) : Bool :=
  match tr.findIdx? p, tr.findIdx? q with
  | some i, some j => decide (i < j)
  | _, _ => false

/-! ### Concrete inputs used by the claim evaluations -/

def srej : String := "rejected by service"

def cSpecSecond : BarSpecification :=
  { period := 1, bstructure := BarStructure.SECOND, price_type := PriceType.BID }

def cSpecTick : BarSpecification :=
  { period := 100, bstructure := BarStructure.TICK, price_type := PriceType.BID }

def cBarTypeSecond : BarType := { symbol := 0, specification := cSpecSecond }

def cBarTypeTick : BarType := { symbol := 0, specification := cSpecTick }

/-- A backtest state whose virtual clock has no pending timers. -/
def c1NoTimerState : BtState :=
  { clock := { time := 0, timers := [] }, handledTicks := [], firedTimers := [] }

/-- A backtest state with one pending timer triggering at time 3. -/
def c1TimerState : BtState :=
  { clock := { time := 0, timers := [{ label := 1, trigger := 3 }] },
    handledTicks := [], firedTimers := [] }

def c1Tick : Tick := { symbol := 0, timestamp := 5 }

/-- Container with one proper instrument (symbol 0, with tick and bar tables)
plus a tick table for symbol 9 that has no instrument definition. -/
def c2containerE : Except PyError BacktestDataContainer := do
  let c := BacktestDataContainer.empty
  let c := c.add_instrument { symbol := 0, tick_precision := 5 }
  let c := c.add_ticks 0 [{ symbol := 0, timestamp := 5 }]
  let c := c.add_ticks 9 [{ symbol := 9, timestamp := 7 }]
  let c ← c.add_bars 0 BarStructure.SECOND PriceType.BID []
  let c ← c.add_bars 0 BarStructure.SECOND PriceType.ASK []
  Except.ok c

def c2container : BacktestDataContainer :=
  c2containerE.toOption.getD BacktestDataContainer.empty

/-- Container with two instruments whose tick tables start at timestamps 10
and 0 respectively: the concatenated (pre-sort) stream is not ascending. -/
def c3containerE : Except PyError BacktestDataContainer := do
  let c := BacktestDataContainer.empty
  let c := c.add_instrument { symbol := 0, tick_precision := 5 }
  let c := c.add_instrument { symbol := 1, tick_precision := 5 }
  let c := c.add_ticks 0 [{ symbol := 0, timestamp := 10 }]
  let c := c.add_ticks 1 [{ symbol := 1, timestamp := 0 }]
  let c ← c.add_bars 0 BarStructure.SECOND PriceType.BID []
  let c ← c.add_bars 0 BarStructure.SECOND PriceType.ASK []
  let c ← c.add_bars 1 BarStructure.SECOND PriceType.BID []
  let c ← c.add_bars 1 BarStructure.SECOND PriceType.ASK []
  Except.ok c

def c3container : BacktestDataContainer :=
  c3containerE.toOption.getD BacktestDataContainer.empty

/-- Container whose only instrument comes with a tick table but no bar
tables at all. -/
def c10OnlyTicksContainer : BacktestDataContainer :=
  (BacktestDataContainer.empty.add_instrument { symbol := 0, tick_precision := 5 }).add_ticks
    0 [{ symbol := 0, timestamp := 5 }]

/-- Container whose only instrument comes with bid/ask bar tables but no
tick table. -/
def c10TicklessContainerE : Except PyError BacktestDataContainer := do
  let c := BacktestDataContainer.empty
  let c := c.add_instrument { symbol := 0, tick_precision := 5 }
  let c ← c.add_bars 0 BarStructure.SECOND PriceType.BID [{ symbol := 0, timestamp := 7 }]
  let c ← c.add_bars 0 BarStructure.SECOND PriceType.ASK [{ symbol := 0, timestamp := 7 }]
  Except.ok c

def c10TicklessContainer : BacktestDataContainer :=
  c10TicklessContainerE.toOption.getD BacktestDataContainer.empty

/-! ### Helper lemmas -/

theorem dlookup_mem {κ α : Type} [DecidableEq κ] :
    ∀ {m : List (κ × α)} {k : κ} {v : α}, dlookup m k = some v → (k, v) ∈ m := by
  intro m
  induction m with
  | nil => intro k v h; exact absurd h (by simp [dlookup])
  | cons p rest ih =>
      intro k v h
      obtain ⟨k', a'⟩ := p
      by_cases hk : k' = k
      · subst hk
        simp [dlookup] at h
        subst h
        exact List.mem_cons_self _ _
      · simp [dlookup, hk] at h
        exact List.mem_cons_of_mem _ (ih h)

theorem check_data_symbols_ok (instr : List (Symbol × Instrument)) :
    ∀ l : List Symbol, check_data_symbols instr l = Except.ok () := by
  intro l
  induction l with
  | nil => rfl
  | cons s rest ih =>
      simp [check_data_symbols, pyAssert, pyTruthy2Tuple, Bind.bind, Except.bind, ih]

theorem buildProvider_missing_bid (data : BacktestDataContainer)
    (m : List (Symbol × DataProvider)) (p : Symbol × Instrument)
    (h : dlookup data.bars_bid p.1 = none) :
    buildProvider data m p = Except.error PyError.keyError := by
  simp [buildProvider, dindex, h, Bind.bind, Except.bind]

theorem buildProvider_missing_ask (data : BacktestDataContainer)
    (m : List (Symbol × DataProvider)) (p : Symbol × Instrument)
    (h : dlookup data.bars_ask p.1 = none) :
    buildProvider data m p = Except.error PyError.keyError := by
  cases hb : dlookup data.bars_bid p.1 <;>
    simp [buildProvider, dindex, hb, h, Bind.bind, Except.bind]

theorem build_data_providers_error (data : BacktestDataContainer) :
    ∀ (l : List (Symbol × Instrument)) (m : List (Symbol × DataProvider)),
      (∃ p ∈ l, dlookup data.bars_bid p.1 = none ∨ dlookup data.bars_ask p.1 = none) →
      exceptIsErr (build_data_providers data m l) = true := by
  intro l
  induction l with
  | nil =>
      intro m h
      rcases h with ⟨p, hp, _⟩
      cases hp
  | cons p rest ih =>
      intro m h
      rcases h with ⟨q, hq, hmiss⟩
      rcases List.mem_cons.mp hq with rfl | hqrest
      · rcases hmiss with hb | ha
        · simp [build_data_providers, buildProvider_missing_bid data m q hb,
                Bind.bind, Except.bind, exceptIsErr]
        · simp [build_data_providers, buildProvider_missing_ask data m q ha,
                Bind.bind, Except.bind, exceptIsErr]
      · cases hbp : buildProvider data m p with
        | error e =>
            simp [build_data_providers, hbp, Bind.bind, Except.bind, exceptIsErr]
        | ok m' =>
            have hrec := ih m' ⟨q, hqrest, hmiss⟩
            simp [build_data_providers, hbp, Bind.bind, Except.bind, hrec]

theorem init_error_of_missing_bars (c : BacktestDataContainer) (s : Symbol)
    (hs : dmem (instrMap c) s = true)
    (hmiss : dlookup c.bars_bid s = none ∨ dlookup c.bars_ask s = none) :
    exceptIsErr (BacktestDataClient.init c) = true := by
  obtain ⟨v, hv⟩ : ∃ v, dlookup (instrMap c) s = some v := by
    unfold dmem at hs
    cases hl : dlookup (instrMap c) s with
    | none => rw [hl] at hs; exact absurd hs (by simp)
    | some v => exact ⟨v, rfl⟩
  have hwit : ∃ p ∈ instrMap c,
      dlookup c.bars_bid p.1 = none ∨ dlookup c.bars_ask p.1 = none :=
    ⟨(s, v), dlookup_mem hv, hmiss⟩
  have herr := build_data_providers_error c (instrMap c) [] hwit
  unfold BacktestDataClient.init
  simp only [check_data_symbols_ok, Bind.bind, Except.bind]
  cases hb : build_data_providers c [] (instrMap c) with
  | error e => simp [hb, Bind.bind, Except.bind, exceptIsErr]
  | ok pr => rw [hb] at herr; exact absurd herr (by simp [exceptIsErr])

/-! ### Claim theorems -/

/-- Claim C1, as stated, is false: it says that when the virtual clock has no
pending timers (or its earliest trigger is later than the tick's timestamp)
`process_tick` returns without advancing the clock.  With no pending timers
the guard `has_timers and timestamp < next_event_time` is false, so the code
falls through and advances the clock to the tick's timestamp: on a state with
an empty timer list and clock time 0, a tick at timestamp 5 leaves the clock
at time 5. -/
theorem C1_process_tick_counterexample :
    ¬ (∀ (s : BtState) (tick : Tick),
        (s.clock.has_timers = false ∨ tick.timestamp < s.clock.next_event_time) →
        (process_tick s tick).clock = s.clock ∧
        (process_tick s tick).firedTimers = s.firedTimers) := by
  intro hclaim
  have h := hclaim c1NoTimerState c1Tick (Or.inl (by decide))
  exact absurd h.1 (by decide)

/-- Claim C1 (amended): `process_tick` first dispatches the tick to the tick
handlers unconditionally; then, if the clock has pending timers and its
earliest trigger time is later than the tick's timestamp, it returns without
touching the clock or firing any timer callback; otherwise — including the
case of no pending timers — it advances the clock to the tick's timestamp
and invokes the callback of every timer now due. -/
theorem C1_process_tick_amended (s : BtState) (tick : Tick) :
    (process_tick s tick).handledTicks = s.handledTicks ++ [tick] ∧
    ((s.clock.has_timers = true ∧ tick.timestamp < s.clock.next_event_time) →
      (process_tick s tick).clock = s.clock ∧
      (process_tick s tick).firedTimers = s.firedTimers) ∧
    (¬ (s.clock.has_timers = true ∧ tick.timestamp < s.clock.next_event_time) →
      (process_tick s tick).clock.time = tick.timestamp ∧
      (process_tick s tick).firedTimers =
        s.firedTimers ++ s.clock.timers.filter (fun t => t.trigger ≤ tick.timestamp)) := by
  by_cases h : s.clock.has_timers = true ∧ tick.timestamp < s.clock.next_event_time
  · refine ⟨?_, fun _ => ?_, fun hn => absurd h hn⟩ <;> simp [process_tick, h]
  · refine ⟨?_, fun hp => absurd hp h, fun _ => ?_⟩ <;> simp [process_tick, h]

/-- Witness for C1: a state with one timer triggering at time 3 and a tick at
timestamp 5 takes the advance-and-fire path. -/
theorem C1_process_tick_amended_witness :
    (process_tick c1TimerState c1Tick).clock.time = 5 ∧
    (process_tick c1TimerState c1Tick).firedTimers = [{ label := 1, trigger := 3 }] := by
  have h := C1_process_tick_amended c1TimerState c1Tick
  exact ⟨(h.2.2 (by decide)).1, ((h.2.2 (by decide)).2).trans (by decide)⟩

/-- Claim C2: the source intends the data-symbol completeness check (the
message reads 'The needed instrument ... was not provided') but applies
`assert` to the 2-tuple `(condition, message)`, which is always truthy, so a
container holding a tick table for symbol 9 with no instrument for symbol 9
still constructs a client (the orphan data is silently ignored). -/
theorem C2_missing_instrument_not_raised :
    dmem (instrMap c2container) 9 = false ∧
    9 ∈ c2container.ticks.map Prod.fst ∧
    exceptIsOk (BacktestDataClient.init c2container) = true := by
  decide

/-- Claim C3: the merged stream is stored sorted ascending, but the recorded
`min_timestamp`/`max_timestamp` are read from `ticks[0]`/`ticks[-1]` of the
*unsorted* concatenation (the source reads the local `ticks`, not the sorted
`self.ticks`): with provider streams starting at timestamps 10 and 0, the
client records min 10 and max 0 while the merged stream runs from 0 to 10. -/
theorem C3_min_max_from_unsorted_concatenation :
    (BacktestDataClient.init c3container).toOption.map
        (fun c => (c.min_timestamp, c.max_timestamp, c.ticks)) =
      some (10, 0, [{ symbol := 1, timestamp := 0 }, { symbol := 0, timestamp := 10 }]) := by
  decide

/-- Claim C4: a negative limit raises the precondition violation before any
wire activity — the operation's effect trace is empty (nothing serialized or
sent, callback never invoked). -/
theorem C4_negative_limit_rejected (symbol : Symbol) (bar_type : BarType)
    (from_date to_date : PyDate) (limit : Int) (h : limit < 0)
    (wt : WireResponse TickQueryPayload) (wb : WireResponse BarQueryPayload) :
    request_ticks symbol from_date to_date limit wt = (Except.error PyError.valueError, []) ∧
    request_bars bar_type from_date to_date limit wb = (Except.error PyError.valueError, []) := by
  constructor <;> simp [request_ticks, request_bars, h]

/-- Witness for C4 at limit -1. -/
theorem C4_negative_limit_rejected_witness :
    request_ticks 0 1 2 (-1) (WireResponse.rejected srej) =
      (Except.error PyError.valueError, []) ∧
    request_bars cBarTypeSecond 1 2 (-1) (WireResponse.rejected srej) =
      (Except.error PyError.valueError, []) :=
  C4_negative_limit_rejected 0 cBarTypeSecond 1 2 (-1) (by decide)
    (WireResponse.rejected srej) (WireResponse.rejected srej)

/-- Claim C5: for all four request operations, a rejected or query-failed
reply is logged, the operation returns normally (no exception), and the
callback is never invoked. -/
theorem C5_rejection_soft_failure
    (symbol s2 : Symbol) (venue : Nat) (bar_type : BarType)
    (from_date to_date : PyDate) (limit : Int) (hl : 0 ≤ limit)
    (hbt : bar_type.specification.bstructure ≠ BarStructure.TICK)
    (wt : WireResponse TickQueryPayload) (ht : wt.isFailure = true)
    (wb : WireResponse BarQueryPayload) (hb : wb.isFailure = true)
    (wi wv : WireResponse InstQueryPayload)
    (hi : wi.isFailure = true) (hv : wv.isFailure = true) :
    ((request_ticks symbol from_date to_date limit wt).1 = Except.ok () ∧
      (request_ticks symbol from_date to_date limit wt).2.any isLogErrorEvent = true ∧
      (request_ticks symbol from_date to_date limit wt).2.all
        (fun e => !isCallbackEvent e) = true) ∧
    ((request_bars bar_type from_date to_date limit wb).1 = Except.ok () ∧
      (request_bars bar_type from_date to_date limit wb).2.any isLogErrorEvent = true ∧
      (request_bars bar_type from_date to_date limit wb).2.all
        (fun e => !isCallbackEvent e) = true) ∧
    ((request_instrument s2 wi).1 = Except.ok () ∧
      (request_instrument s2 wi).2.any isLogErrorEvent = true ∧
      (request_instrument s2 wi).2.all (fun e => !isCallbackEvent e) = true) ∧
    ((request_instruments venue wv).1 = Except.ok () ∧
      (request_instruments venue wv).2.any isLogErrorEvent = true ∧
      (request_instruments venue wv).2.all (fun e => !isCallbackEvent e) = true) := by
  have hnl : ¬ limit < 0 := not_lt.mpr hl
  refine ⟨?_, ?_, ?_, ?_⟩
  · cases wt with
    | success p => simp [WireResponse.isFailure] at ht
    | rejected r => simp [request_ticks, hnl, isLogErrorEvent, isCallbackEvent]
    | queryFailure r => simp [request_ticks, hnl, isLogErrorEvent, isCallbackEvent]
  · cases wb with
    | success p => simp [WireResponse.isFailure] at hb
    | rejected r => simp [request_bars, hnl, hbt, isLogErrorEvent, isCallbackEvent]
    | queryFailure r => simp [request_bars, hnl, hbt, isLogErrorEvent, isCallbackEvent]
  · cases wi with
    | success p => simp [WireResponse.isFailure] at hi
    | rejected r => simp [request_instrument, isLogErrorEvent, isCallbackEvent]
    | queryFailure r => simp [request_instrument, isLogErrorEvent, isCallbackEvent]
  · cases wv with
    | success p => simp [WireResponse.isFailure] at hv
    | rejected r => simp [request_instruments, isLogErrorEvent, isCallbackEvent]
    | queryFailure r => simp [request_instruments, isLogErrorEvent, isCallbackEvent]

/-- Witness for C5 at a concrete rejected tick request. -/
theorem C5_rejection_soft_failure_witness :
    (request_ticks 0 1 2 0 (WireResponse.rejected srej)).1 = Except.ok () ∧
    (request_ticks 0 1 2 0 (WireResponse.rejected srej)).2.any isLogErrorEvent = true ∧
    (request_ticks 0 1 2 0 (WireResponse.rejected srej)).2.all
      (fun e => !isCallbackEvent e) = true := by
  have h := C5_rejection_soft_failure 0 0 0 cBarTypeSecond 1 2 0 (by decide) (by decide)
    (WireResponse.rejected srej) (by decide) (WireResponse.rejected srej) (by decide)
    (WireResponse.rejected srej) (WireResponse.rejected srej) (by decide) (by decide)
  exact h.1

/-- Claim C6: on a successful reply, a decoded subject differing from the
requested subject makes the assertion fire (the call raises and no callback
runs); with equal subjects the error branch is unreachable and the callback
receives the decoded items. -/
theorem C6_subject_integrity
    (symbol : Symbol) (bar_type : BarType) (from_date to_date : PyDate)
    (limit : Int) (hl : 0 ≤ limit)
    (hbt : bar_type.specification.bstructure ≠ BarStructure.TICK)
    (pt : TickQueryPayload) (pb : BarQueryPayload) :
    (pt.msymbol ≠ symbol →
      (request_ticks symbol from_date to_date limit (WireResponse.success pt)).1 =
        Except.error PyError.assertionError ∧
      (request_ticks symbol from_date to_date limit (WireResponse.success pt)).2.all
        (fun e => !isCallbackEvent e) = true) ∧
    (pt.msymbol = symbol →
      (request_ticks symbol from_date to_date limit (WireResponse.success pt)).1 =
        Except.ok () ∧
      LiveEvent.callbackTicks pt.msymbol pt.items ∈
        (request_ticks symbol from_date to_date limit (WireResponse.success pt)).2) ∧
    (({ symbol := pb.msymbol, specification := pb.mspec } : BarType) ≠ bar_type →
      (request_bars bar_type from_date to_date limit (WireResponse.success pb)).1 =
        Except.error PyError.assertionError ∧
      (request_bars bar_type from_date to_date limit (WireResponse.success pb)).2.all
        (fun e => !isCallbackEvent e) = true) ∧
    (({ symbol := pb.msymbol, specification := pb.mspec } : BarType) = bar_type →
      (request_bars bar_type from_date to_date limit (WireResponse.success pb)).1 =
        Except.ok () ∧
      LiveEvent.callbackBars { symbol := pb.msymbol, specification := pb.mspec } pb.items ∈
        (request_bars bar_type from_date to_date limit (WireResponse.success pb)).2) := by
  have hnl : ¬ limit < 0 := not_lt.mpr hl
  refine ⟨fun hne => ?_, fun he => ?_, fun hne => ?_, fun he => ?_⟩
  · simp [request_ticks, hnl, hne, isCallbackEvent]
  · simp [request_ticks, hnl, he, isCallbackEvent]
  · simp [request_bars, hnl, hbt, hne, isCallbackEvent]
  · simp [request_bars, hnl, hbt, he, isCallbackEvent]

/-- Witness for C6: a tick reply whose subject symbol 1 differs from the
requested symbol 0 raises the assertion; an equal-subject reply invokes the
callback. -/
theorem C6_subject_integrity_witness :
    (request_ticks 0 1 2 0 (WireResponse.success { msymbol := 1, items := [] })).1 =
      Except.error PyError.assertionError ∧
    LiveEvent.callbackTicks 0 [] ∈
      (request_ticks 0 1 2 0 (WireResponse.success { msymbol := 0, items := [] })).2 := by
  have h1 := C6_subject_integrity 0 cBarTypeSecond 1 2 0 (by decide) (by decide)
    { msymbol := 1, items := [] } { msymbol := 0, mspec := cSpecSecond, items := [] }
  have h2 := C6_subject_integrity 0 cBarTypeSecond 1 2 0 (by decide) (by decide)
    { msymbol := 0, items := [] } { msymbol := 0, mspec := cSpecSecond, items := [] }
  exact ⟨(h1.1 (by decide)).1, (h2.2.1 rfl).2⟩

/-- Claim C7: a tick-count-structured bar subscription never issues a wire
subscribe on the bar publish/subscribe channel and instead sets up the local
tick-driven aggregator (which forwards bars through the shared dispatch
path); wall-clock-structured bar types do issue the remote bar subscribe. -/
theorem C7_tick_bars_local (bar_type : BarType) :
    (bar_type.specification.bstructure = BarStructure.TICK →
      (subscribe_bars bar_type).all (fun e => !isBarWireSubscribeEvent e) = true ∧
      LiveEvent.selfGenerateBars bar_type ∈ subscribe_bars bar_type) ∧
    (bar_type.specification.bstructure ≠ BarStructure.TICK →
      (subscribe_bars bar_type).any isBarWireSubscribeEvent = true) := by
  constructor
  · intro h
    simp [subscribe_bars, h, self_generate_bars, subscribe_ticks, isBarWireSubscribeEvent]
  · intro h
    simp [subscribe_bars, h, isBarWireSubscribeEvent]

/-- Witness for C7: the tick-structured bar type stays local, the
second-structured bar type goes to the wire. -/
theorem C7_tick_bars_local_witness :
    (subscribe_bars cBarTypeTick).all (fun e => !isBarWireSubscribeEvent e) = true ∧
    (subscribe_bars cBarTypeSecond).any isBarWireSubscribeEvent = true :=
  ⟨((C7_tick_bars_local cBarTypeTick).1 (by decide)).1,
    (C7_tick_bars_local cBarTypeSecond).2 (by decide)⟩

/-- Claim C8: each subscribe operation registers the handler strictly before
the wire subscribe is issued on the publish/subscribe channel. -/
theorem C8_register_before_wire_subscribe (symbol s2 : Symbol) (bar_type : BarType)
    (hbt : bar_type.specification.bstructure ≠ BarStructure.TICK) :
    eventBefore isRegisterEvent isWireSubscribeEvent (subscribe_ticks symbol) = true ∧
    eventBefore isRegisterEvent isWireSubscribeEvent (subscribe_bars bar_type) = true ∧
    eventBefore isRegisterEvent isWireSubscribeEvent (subscribe_instrument s2) = true := by
  refine ⟨rfl, ?_, rfl⟩
  obtain ⟨sym, ⟨period, bst, pt⟩⟩ := bar_type
  cases bst with
  | TICK => exact absurd rfl hbt
  | SECOND => rfl
  | MINUTE => rfl
  | HOUR => rfl

/-- Witness for C8 at a second-structured bar type. -/
theorem C8_register_before_wire_subscribe_witness :
    eventBefore isRegisterEvent isWireSubscribeEvent (subscribe_ticks 0) = true ∧
    eventBefore isRegisterEvent isWireSubscribeEvent (subscribe_bars cBarTypeSecond) = true ∧
    eventBefore isRegisterEvent isWireSubscribeEvent (subscribe_instrument 1) = true :=
  C8_register_before_wire_subscribe 0 1 cBarTypeSecond (by decide)

/-- Claim C9: each unsubscribe operation issues the wire unsubscribe on the
publish/subscribe channel strictly before the handler is removed from the
registry (the blocking unsubscribe call completes before the removal). -/
theorem C9_wire_unsubscribe_before_removal (symbol s2 : Symbol) (bar_type : BarType) :
    eventBefore isWireUnsubscribeEvent isRemoveEvent (unsubscribe_ticks symbol) = true ∧
    eventBefore isWireUnsubscribeEvent isRemoveEvent (unsubscribe_bars bar_type) = true ∧
    eventBefore isWireUnsubscribeEvent isRemoveEvent (unsubscribe_instrument s2) = true :=
  ⟨rfl, rfl, rfl⟩

/-- Claim C10: construction indexes the bid- and ask-bar maps by each
instrument's symbol unguarded, so a missing entry raises a lookup error for
any such container (concretely, `KeyError` for the instrument supplied with
only a tick table), while an absent tick table alone constructs fine. -/
theorem C10_unguarded_bar_map_lookup :
    (∀ (c : BacktestDataContainer) (s : Symbol),
        dmem (instrMap c) s = true →
        (dlookup c.bars_bid s = none ∨ dlookup c.bars_ask s = none) →
        exceptIsErr (BacktestDataClient.init c) = true) ∧
    BacktestDataClient.init c10OnlyTicksContainer = Except.error PyError.keyError ∧
    exceptIsOk (BacktestDataClient.init c10TicklessContainer) = true := by
  refine ⟨init_error_of_missing_bars, rfl, by decide⟩

/-- Witness for C10: the universal part applied to the tick-only container. -/
theorem C10_unguarded_bar_map_lookup_witness :
    dmem (instrMap c10OnlyTicksContainer) 0 = true ∧
    dlookup c10OnlyTicksContainer.bars_bid 0 = none ∧
    exceptIsErr (BacktestDataClient.init c10OnlyTicksContainer) = true := by
  have h := C10_unguarded_bar_map_lookup.1 c10OnlyTicksContainer 0 (by decide)
    (Or.inl (by decide))
  exact ⟨by decide, by decide, h⟩

end Nautilus
